import Mathlib

/-!
Verification of the `ResourceServers` management-API wrapper
(`auth0/management/resource_servers.py`).

The wrapper holds a `domain`, a `protocol` and a REST client, builds URLs
of the form `protocol ++ "://" ++ domain ++ "/api/v2/resource-servers"`
(optionally followed by `"/" ++ id`) and delegates every operation to one
verb of the REST client.  The REST client is an external collaborator and
is modelled abstractly as a record of verb functions; instantiating it
with a recording client exposes the exact requests each operation emits.
-/

namespace Auth0

/-- Value of a query parameter in the dict handed to the REST client.
Python is dynamically typed, so a parameter slot may hold `None`, an
integer, a string or a boolean. -/
inductive ParamVal where
  | null : ParamVal
  | int (n : Int) : ParamVal
  | str (s : String) : ParamVal
  | bool (b : Bool) : ParamVal
deriving DecidableEq, Repr

/-- Query parameters: an ordered association list, mirroring the Python
dict literal whose insertion order is `page`, `per_page`, `include_totals`. -/
abbrev Params : Type := List (String × ParamVal)

/-- HTTP verb used by a REST-client call. -/
inductive Verb where
  | GET : Verb
  | POST : Verb
  | PATCH : Verb
  | DELETE : Verb
deriving DecidableEq, Repr

/-- One request handed to the REST client: the verb, the URL, the
optional query-parameter dict and the optional request payload. -/
structure Request (β : Type) where
  verb : Verb
  url : String
  params : Option Params
  body : Option β
deriving DecidableEq

/-- Abstract interface of the external REST client collaborator
(`auth0/rest.py` is outside this module): one function per verb.
`get` takes an optional parameter dict, `post` and `patch` take a
payload, `delete` takes only the URL; each returns a result of type ρ. -/
structure RestClient (β ρ : Type) where
  get : String → Option Params → ρ
  post : String → β → ρ
  patch : String → β → ρ
  delete : String → ρ

/-- State of a `ResourceServers` instance: exactly the three fields the
constructor assigns (`self.domain`, `self.protocol`, `self.client`). -/
structure ResourceServers (β ρ : Type) where
  domain : String
  protocol : String
  client : RestClient β ρ

/-- The constructor `ResourceServers.__init__`: stores `domain` and
`protocol` and builds the REST client from `token`, `telemetry`,
`timeout` and `rest_options`.  The external `RestClient` constructor is
abstracted as `mkRest`; `timeout` and `rest_options` have opaque types
since the wrapper only forwards them. -/
def ResourceServers.init {β ρ τ ω : Type}
    (mkRest : String → Bool → τ → ω → RestClient β ρ)
    (domain : String) (token : String) (telemetry : Bool)
    (timeout : τ) (protocol : String) (rest_options : ω) :
    ResourceServers β ρ :=
  { domain := domain
    protocol := protocol
    client := mkRest token telemetry timeout rest_options }

/-- `ResourceServers._url`: the collection URL, with `"/" ++ id`
appended when an id is given. -/
def ResourceServers._url {β ρ : Type} (s : ResourceServers β ρ)
    (id : Option String) : String :=
  let url := s.protocol ++ "://" ++ s.domain ++ "/api/v2/resource-servers"
  match id with
  | some i => url ++ "/" ++ i
  | none => url

/-- Python `str` applied to a boolean. -/
def pyStr (b : Bool) : String :=
  if b then "True" else "False"

/-- Python `str.lower`: lowercase every character of the string. -/
def strLower (s : String) : String :=
  ⟨s.data.map Char.toLower⟩

/-- `ResourceServers.create`: POST the body to the collection URL. -/
def ResourceServers.create {β ρ : Type} (s : ResourceServers β ρ)
    (body : β) : ρ :=
  s.client.post (s._url none) body

/-- Injection of a Python int-or-None value into a parameter slot. -/
def optInt : Option Int → ParamVal
  | some n => ParamVal.int n
  | none => ParamVal.null

/-- `ResourceServers.get_all`: GET the collection URL with the
`page`, `per_page` and `include_totals` query parameters, the last
serialized by Python `str(...).lower()`. -/
def ResourceServers.get_all {β ρ : Type} (s : ResourceServers β ρ)
    (page : Option Int) (per_page : Option Int)
    (include_totals : Bool) : ρ :=
  let params : Params :=
    [("page", optInt page),
     ("per_page", optInt per_page),
     ("include_totals", ParamVal.str (strLower (pyStr include_totals)))]
  s.client.get (s._url none) (some params)

/-- `ResourceServers.get`: GET the URL for the given id, no params. -/
def ResourceServers.get {β ρ : Type} (s : ResourceServers β ρ)
    (id : String) : ρ :=
  s.client.get (s._url (some id)) none

/-- `ResourceServers.delete`: DELETE the URL for the given id. -/
def ResourceServers.delete {β ρ : Type} (s : ResourceServers β ρ)
    (id : String) : ρ :=
  s.client.delete (s._url (some id))

/-- `ResourceServers.update`: PATCH the URL for the given id with the body. -/
def ResourceServers.update {β ρ : Type} (s : ResourceServers β ρ)
    (id : String) (body : β) : ρ :=
  s.client.patch (s._url (some id)) body

/-- A recording REST client: each verb returns the one-element list of
the request it was handed, so the result of an operation is exactly the
sequence of requests it sent. -/
def recClient (β : Type) : RestClient β (List (Request β)) where
  get := fun u ps => [⟨Verb.GET, u, ps, none⟩]
  post := fun u b => [⟨Verb.POST, u, none, some b⟩]
  patch := fun u b => [⟨Verb.PATCH, u, none, some b⟩]
  delete := fun u => [⟨Verb.DELETE, u, none, none⟩]

/-- A REST client every verb of which fails with the fixed error `e`,
modelling a transport failure such as a 404 response. -/
def errClient (β ε ρ : Type) (e : ε) : RestClient β (Except ε ρ) where
  get := fun _ _ => Except.error e
  post := fun _ _ => Except.error e
  patch := fun _ _ => Except.error e
  delete := fun _ => Except.error e

/-- One call of the public interface, with its arguments. -/
inductive Op (β : Type) where
  | create (body : β) : Op β
  | get_all (page : Option Int) (per_page : Option Int)
      (include_totals : Bool) : Op β
  | get (id : String) : Op β
  | delete (id : String) : Op β
  | update (id : String) (body : β) : Op β

/-- Explicit state-passing form of the five methods: each Python method
body contains no assignment to an instance field, so the post-state is
the pre-state. -/
def ResourceServers.step {β ρ : Type} (s : ResourceServers β ρ) :
    Op β → ρ × ResourceServers β ρ
  | Op.create body => (s.create body, s)
  | Op.get_all page per_page it => (s.get_all page per_page it, s)
  | Op.get id => (s.get id, s)
  | Op.delete id => (s.delete id, s)
  | Op.update id body => (s.update id body, s)

/-- Run a sequence of operations, threading the instance state. -/
def runOps {β ρ : Type} (s : ResourceServers β ρ) :
    List (Op β) → ResourceServers β ρ
  | [] => s
  | op :: rest => runOps (s.step op).2 rest

lemma step_state {β ρ : Type} (s : ResourceServers β ρ) (op : Op β) :
    (s.step op).2 = s := by
  cases op <;> rfl

/-- Claim C1: with a recording client, create and get_all each emit
exactly one request at the collection URL with no id suffix, while get,
delete and update each emit exactly one request at the collection URL
followed by a slash and the id, with no other path segments. -/
theorem url_construction {β : Type} (p d id : String) (body : β)
    (page per_page : Option Int) (it : Bool) :
    (ResourceServers.mk d p (recClient β)).create body =
      [⟨Verb.POST, p ++ "://" ++ d ++ "/api/v2/resource-servers",
        none, some body⟩] ∧
    (ResourceServers.mk d p (recClient β)).get_all page per_page it =
      [⟨Verb.GET, p ++ "://" ++ d ++ "/api/v2/resource-servers",
        some [("page", optInt page), ("per_page", optInt per_page),
              ("include_totals", ParamVal.str (strLower (pyStr it)))],
        none⟩] ∧
    (ResourceServers.mk d p (recClient β)).get id =
      [⟨Verb.GET, p ++ "://" ++ d ++ "/api/v2/resource-servers/" ++ id,
        none, none⟩] ∧
    (ResourceServers.mk d p (recClient β)).delete id =
      [⟨Verb.DELETE, p ++ "://" ++ d ++ "/api/v2/resource-servers/" ++ id,
        none, none⟩] ∧
    (ResourceServers.mk d p (recClient β)).update id body =
      [⟨Verb.PATCH, p ++ "://" ++ d ++ "/api/v2/resource-servers/" ++ id,
        none, some body⟩] := by
  refine ⟨rfl, rfl, ?_, ?_, ?_⟩ <;>
    simp [ResourceServers.get, ResourceServers.delete,
      ResourceServers.update, ResourceServers._url, recClient,
      String.append_assoc]

/-- Claim C2: get_all sends exactly the three query parameters page,
per_page and include_totals; page and per_page are forwarded verbatim
(null when absent) and include_totals is serialized as the lowercase
string literal true or false, never a boolean; in particular the
no-argument call sends page null, per_page null, include_totals the
string false, and the call with page 2, per_page 10, include_totals
true sends 2, 10 and the string true. -/
theorem get_all_params {β : Type} (p d : String)
    (page per_page : Option Int) (it : Bool) :
    (ResourceServers.mk d p (recClient β)).get_all page per_page it =
      [⟨Verb.GET, p ++ "://" ++ d ++ "/api/v2/resource-servers",
        some [("page", optInt page), ("per_page", optInt per_page),
              ("include_totals",
               ParamVal.str (if it then "true" else "false"))],
        none⟩] ∧
    (ResourceServers.mk d p (recClient β)).get_all none none false =
      [⟨Verb.GET, p ++ "://" ++ d ++ "/api/v2/resource-servers",
        some [("page", ParamVal.null), ("per_page", ParamVal.null),
              ("include_totals", ParamVal.str "false")],
        none⟩] ∧
    (ResourceServers.mk d p (recClient β)).get_all (some 2) (some 10) true =
      [⟨Verb.GET, p ++ "://" ++ d ++ "/api/v2/resource-servers",
        some [("page", ParamVal.int 2), ("per_page", ParamVal.int 10),
              ("include_totals", ParamVal.str "true")],
        none⟩] := by
  refine ⟨?_, rfl, rfl⟩
  cases it <;> rfl

/-- Claim C3: every operation returns the REST client verb result as is,
so an error produced by the client propagates to the caller unchanged;
nothing is caught, rewrapped, translated, suppressed or retried. -/
theorem error_passthrough {β ε ρ : Type}
    (s : ResourceServers β (Except ε ρ)) (id : String) (body : β)
    (page per_page : Option Int) (it : Bool) (e : ε) :
    (s.client.post (s._url none) body = Except.error e →
      s.create body = Except.error e) ∧
    (s.client.get (s._url none)
        (some [("page", optInt page), ("per_page", optInt per_page),
               ("include_totals", ParamVal.str (strLower (pyStr it)))]) =
        Except.error e →
      s.get_all page per_page it = Except.error e) ∧
    (s.client.get (s._url (some id)) none = Except.error e →
      s.get id = Except.error e) ∧
    (s.client.delete (s._url (some id)) = Except.error e →
      s.delete id = Except.error e) ∧
    (s.client.patch (s._url (some id)) body = Except.error e →
      s.update id body = Except.error e) :=
  ⟨fun h => h, fun h => h, fun h => h, fun h => h, fun h => h⟩

/-- Witness for claim C3: with a client whose every verb fails with
error 404, each of the five operations returns exactly that error. -/
theorem error_passthrough_witness :
    (ResourceServers.mk "example.auth0.com" "https"
      (errClient Nat Nat Nat 404)).create 7 = Except.error 404 ∧
    (ResourceServers.mk "example.auth0.com" "https"
      (errClient Nat Nat Nat 404)).get_all none none false =
      Except.error 404 ∧
    (ResourceServers.mk "example.auth0.com" "https"
      (errClient Nat Nat Nat 404)).get "missing-id" = Except.error 404 ∧
    (ResourceServers.mk "example.auth0.com" "https"
      (errClient Nat Nat Nat 404)).delete "missing-id" =
      Except.error 404 ∧
    (ResourceServers.mk "example.auth0.com" "https"
      (errClient Nat Nat Nat 404)).update "missing-id" 7 =
      Except.error 404 :=
  ⟨(error_passthrough (ResourceServers.mk "example.auth0.com" "https"
      (errClient Nat Nat Nat 404)) "missing-id" 7 none none false 404).1 rfl,
   (error_passthrough (ResourceServers.mk "example.auth0.com" "https"
      (errClient Nat Nat Nat 404)) "missing-id" 7 none none false
      404).2.1 rfl,
   (error_passthrough (ResourceServers.mk "example.auth0.com" "https"
      (errClient Nat Nat Nat 404)) "missing-id" 7 none none false
      404).2.2.1 rfl,
   (error_passthrough (ResourceServers.mk "example.auth0.com" "https"
      (errClient Nat Nat Nat 404)) "missing-id" 7 none none false
      404).2.2.2.1 rfl,
   (error_passthrough (ResourceServers.mk "example.auth0.com" "https"
      (errClient Nat Nat Nat 404)) "missing-id" 7 none none false
      404).2.2.2.2 rfl⟩

/-- Claim C4: create performs a POST to the collection URL with no id
suffix, forwards the body unmodified as the payload, and returns the
REST client result. -/
theorem create_sends_body {β ρ : Type} (s : ResourceServers β ρ)
    (p d : String) (body : β) :
    s.create body =
      s.client.post
        (s.protocol ++ "://" ++ s.domain ++ "/api/v2/resource-servers")
        body ∧
    (ResourceServers.mk d p (recClient β)).create body =
      [⟨Verb.POST, p ++ "://" ++ d ++ "/api/v2/resource-servers",
        none, some body⟩] :=
  ⟨rfl, rfl⟩

/-- Claim C5: each operation is exactly one REST client verb call,
mapped create to POST, get_all to GET, get to GET, delete to DELETE and
update to PATCH; update forwards the body verbatim as the PATCH payload
and every operation returns the client result unchanged. -/
theorem verb_mapping {β ρ : Type} (s : ResourceServers β ρ)
    (p d id : String) (body : β) (page per_page : Option Int)
    (it : Bool) :
    s.create body = s.client.post (s._url none) body ∧
    s.get_all page per_page it =
      s.client.get (s._url none)
        (some [("page", optInt page), ("per_page", optInt per_page),
               ("include_totals",
                ParamVal.str (strLower (pyStr it)))]) ∧
    s.get id = s.client.get (s._url (some id)) none ∧
    s.delete id = s.client.delete (s._url (some id)) ∧
    s.update id body = s.client.patch (s._url (some id)) body ∧
    ((ResourceServers.mk d p (recClient β)).create body).map
        Request.verb = [Verb.POST] ∧
    ((ResourceServers.mk d p (recClient β)).get_all page per_page
        it).map Request.verb = [Verb.GET] ∧
    ((ResourceServers.mk d p (recClient β)).get id).map Request.verb =
      [Verb.GET] ∧
    ((ResourceServers.mk d p (recClient β)).delete id).map
        Request.verb = [Verb.DELETE] ∧
    ((ResourceServers.mk d p (recClient β)).update id body).map
        Request.verb = [Verb.PATCH] ∧
    ((ResourceServers.mk d p (recClient β)).update id body).map
        Request.body = [some body] :=
  ⟨rfl, rfl, rfl, rfl, rfl, rfl, rfl, rfl, rfl, rfl, rfl⟩

/-- Claim C6: two instances differing only in protocol emit, for every
operation, requests whose URLs differ only in the scheme prefix; the
domain, the path, the id suffix and all query and body parameters are
identical. -/
theorem protocol_only_scheme {β : Type} (p q d id : String) (body : β)
    (page per_page : Option Int) (it : Bool) :
    (ResourceServers.mk d p (recClient β)).create body =
      [⟨Verb.POST, p ++ "://" ++ d ++ "/api/v2/resource-servers",
        none, some body⟩] ∧
    (ResourceServers.mk d q (recClient β)).create body =
      [⟨Verb.POST, q ++ "://" ++ d ++ "/api/v2/resource-servers",
        none, some body⟩] ∧
    (ResourceServers.mk d p (recClient β)).get_all page per_page it =
      [⟨Verb.GET, p ++ "://" ++ d ++ "/api/v2/resource-servers",
        some [("page", optInt page), ("per_page", optInt per_page),
              ("include_totals", ParamVal.str (strLower (pyStr it)))],
        none⟩] ∧
    (ResourceServers.mk d q (recClient β)).get_all page per_page it =
      [⟨Verb.GET, q ++ "://" ++ d ++ "/api/v2/resource-servers",
        some [("page", optInt page), ("per_page", optInt per_page),
              ("include_totals", ParamVal.str (strLower (pyStr it)))],
        none⟩] ∧
    (ResourceServers.mk d p (recClient β)).get id =
      [⟨Verb.GET, p ++ "://" ++ d ++ "/api/v2/resource-servers/" ++ id,
        none, none⟩] ∧
    (ResourceServers.mk d q (recClient β)).get id =
      [⟨Verb.GET, q ++ "://" ++ d ++ "/api/v2/resource-servers/" ++ id,
        none, none⟩] ∧
    (ResourceServers.mk d p (recClient β)).delete id =
      [⟨Verb.DELETE, p ++ "://" ++ d ++ "/api/v2/resource-servers/" ++ id,
        none, none⟩] ∧
    (ResourceServers.mk d q (recClient β)).delete id =
      [⟨Verb.DELETE, q ++ "://" ++ d ++ "/api/v2/resource-servers/" ++ id,
        none, none⟩] ∧
    (ResourceServers.mk d p (recClient β)).update id body =
      [⟨Verb.PATCH, p ++ "://" ++ d ++ "/api/v2/resource-servers/" ++ id,
        none, some body⟩] ∧
    (ResourceServers.mk d q (recClient β)).update id body =
      [⟨Verb.PATCH, q ++ "://" ++ d ++ "/api/v2/resource-servers/" ++ id,
        none, some body⟩] := by
  refine ⟨rfl, rfl, rfl, rfl, ?_, ?_, ?_, ?_, ?_, ?_⟩ <;>
    simp [ResourceServers.get, ResourceServers.delete,
      ResourceServers.update, ResourceServers._url, recClient,
      String.append_assoc]

/-- Claim C7: for two recording instances with different domains, the
requests each operation emits are a function of that instance's own
domain and protocol fields alone; the other instance never influences
them, so there is no shared mutable state between instances. -/
theorem instance_isolation {β : Type}
    (A B : ResourceServers β (List (Request β)))
    (hA : A.client = recClient β) (hB : B.client = recClient β)
    (hd : A.domain ≠ B.domain) (id : String) (body : β)
    (page per_page : Option Int) (it : Bool) :
    (A.create body =
      [⟨Verb.POST, A.protocol ++ "://" ++ A.domain ++
        "/api/v2/resource-servers", none, some body⟩] ∧
     A.get_all page per_page it =
      [⟨Verb.GET, A.protocol ++ "://" ++ A.domain ++
        "/api/v2/resource-servers",
        some [("page", optInt page), ("per_page", optInt per_page),
              ("include_totals", ParamVal.str (strLower (pyStr it)))],
        none⟩] ∧
     A.get id =
      [⟨Verb.GET, A.protocol ++ "://" ++ A.domain ++
        "/api/v2/resource-servers/" ++ id, none, none⟩] ∧
     A.delete id =
      [⟨Verb.DELETE, A.protocol ++ "://" ++ A.domain ++
        "/api/v2/resource-servers/" ++ id, none, none⟩] ∧
     A.update id body =
      [⟨Verb.PATCH, A.protocol ++ "://" ++ A.domain ++
        "/api/v2/resource-servers/" ++ id, none, some body⟩]) ∧
    (B.create body =
      [⟨Verb.POST, B.protocol ++ "://" ++ B.domain ++
        "/api/v2/resource-servers", none, some body⟩] ∧
     B.get_all page per_page it =
      [⟨Verb.GET, B.protocol ++ "://" ++ B.domain ++
        "/api/v2/resource-servers",
        some [("page", optInt page), ("per_page", optInt per_page),
              ("include_totals", ParamVal.str (strLower (pyStr it)))],
        none⟩] ∧
     B.get id =
      [⟨Verb.GET, B.protocol ++ "://" ++ B.domain ++
        "/api/v2/resource-servers/" ++ id, none, none⟩] ∧
     B.delete id =
      [⟨Verb.DELETE, B.protocol ++ "://" ++ B.domain ++
        "/api/v2/resource-servers/" ++ id, none, none⟩] ∧
     B.update id body =
      [⟨Verb.PATCH, B.protocol ++ "://" ++ B.domain ++
        "/api/v2/resource-servers/" ++ id, none, some body⟩]) := by
  obtain ⟨dA, pA, cA⟩ := A
  obtain ⟨dB, pB, cB⟩ := B
  simp only at hA hB
  subst hA
  subst hB
  constructor <;>
    refine ⟨rfl, rfl, ?_, ?_, ?_⟩ <;>
    simp [ResourceServers.get, ResourceServers.delete,
      ResourceServers.update, ResourceServers._url, recClient,
      String.append_assoc]

/-- Witness for claim C7: two concrete instances with distinct domains,
checked on the get operation of each side. -/
theorem instance_isolation_witness :
    (ResourceServers.mk "one.auth0.com" "https" (recClient Nat)).get
      "x" =
      [⟨Verb.GET, "https://one.auth0.com/api/v2/resource-servers/x",
        none, none⟩] ∧
    (ResourceServers.mk "two.auth0.com" "https" (recClient Nat)).get
      "x" =
      [⟨Verb.GET, "https://two.auth0.com/api/v2/resource-servers/x",
        none, none⟩] :=
  ⟨(instance_isolation
      (ResourceServers.mk "one.auth0.com" "https" (recClient Nat))
      (ResourceServers.mk "two.auth0.com" "https" (recClient Nat))
      rfl rfl (by decide) "x" 0 none none false).1.2.2.1,
   (instance_isolation
      (ResourceServers.mk "one.auth0.com" "https" (recClient Nat))
      (ResourceServers.mk "two.auth0.com" "https" (recClient Nat))
      rfl rfl (by decide) "x" 0 none none false).2.2.2.1⟩

/-- Claim C8: the constructor sets exactly the domain, protocol and
client fields from its arguments, and running any sequence of the five
operations leaves the instance state equal to the state right after
construction. -/
theorem no_mutation {β ρ τ ω : Type}
    (mkRest : String → Bool → τ → ω → RestClient β ρ)
    (d tok : String) (tel : Bool) (tmo : τ) (p : String) (ro : ω)
    (s : ResourceServers β ρ) (ops : List (Op β)) :
    runOps s ops = s ∧
    (ResourceServers.init mkRest d tok tel tmo p ro).domain = d ∧
    (ResourceServers.init mkRest d tok tel tmo p ro).protocol = p ∧
    (ResourceServers.init mkRest d tok tel tmo p ro).client =
      mkRest tok tel tmo ro := by
  refine ⟨?_, rfl, rfl, rfl⟩
  induction ops generalizing s with
  | nil => rfl
  | cons op rest ih =>
    show runOps (s.step op).2 rest = s
    rw [step_state]
    exact ih s

/-- Claim C9: the id is concatenated into the URL verbatim, with no
validation or escaping: the URL for an empty id is the collection URL
followed by a bare trailing slash, and slashes inside the id appear
literally, producing extra path segments. -/
theorem id_verbatim {β : Type} (p d id : String) (body : β) :
    (ResourceServers.mk d p (recClient β))._url (some id) =
      p ++ "://" ++ d ++ "/api/v2/resource-servers/" ++ id ∧
    (ResourceServers.mk d p (recClient β))._url (some "") =
      p ++ "://" ++ d ++ "/api/v2/resource-servers" ++ "/" ∧
    (ResourceServers.mk d p (recClient β)).get "a/b" =
      [⟨Verb.GET, p ++ "://" ++ d ++ "/api/v2/resource-servers/a/b",
        none, none⟩] ∧
    (ResourceServers.mk d p (recClient β)).delete "a/b" =
      [⟨Verb.DELETE, p ++ "://" ++ d ++ "/api/v2/resource-servers/a/b",
        none, none⟩] ∧
    (ResourceServers.mk d p (recClient β)).update "a/b" body =
      [⟨Verb.PATCH, p ++ "://" ++ d ++ "/api/v2/resource-servers/a/b",
        none, some body⟩] := by
  refine ⟨?_, ?_, ?_, ?_, ?_⟩ <;>
    simp [ResourceServers.get, ResourceServers.delete,
      ResourceServers.update, ResourceServers._url, recClient,
      String.append_assoc]

/-- Claim C10: each operation is deterministic in its explicit inputs:
two instances whose domain, protocol and client fields agree produce,
for identical call arguments, identical results, so the request handed
to the REST client depends on nothing hidden. -/
theorem determinism {β ρ : Type} (s1 s2 : ResourceServers β ρ)
    (hc : s1.client = s2.client) (hd : s1.domain = s2.domain)
    (hp : s1.protocol = s2.protocol) (id : String) (body : β)
    (page per_page : Option Int) (it : Bool) :
    s1.create body = s2.create body ∧
    s1.get_all page per_page it = s2.get_all page per_page it ∧
    s1.get id = s2.get id ∧
    s1.delete id = s2.delete id ∧
    s1.update id body = s2.update id body := by
  obtain ⟨d1, p1, c1⟩ := s1
  obtain ⟨d2, p2, c2⟩ := s2
  simp only at hc hd hp
  subst hc
  subst hd
  subst hp
  exact ⟨rfl, rfl, rfl, rfl, rfl⟩

/-- Witness for claim C10: two separately constructed instances with
identical arguments give identical results for every operation. -/
theorem determinism_witness :
    (ResourceServers.mk "d.auth0.com" "https" (recClient Nat)).create
      5 =
      (ResourceServers.mk "d.auth0.com" "https" (recClient Nat)).create
        5 ∧
    (ResourceServers.mk "d.auth0.com" "https" (recClient Nat)).get_all
      (some 2) (some 10) true =
      (ResourceServers.mk "d.auth0.com" "https" (recClient Nat)).get_all
        (some 2) (some 10) true ∧
    (ResourceServers.mk "d.auth0.com" "https" (recClient Nat)).get "x" =
      (ResourceServers.mk "d.auth0.com" "https" (recClient Nat)).get
        "x" ∧
    (ResourceServers.mk "d.auth0.com" "https" (recClient Nat)).delete
      "x" =
      (ResourceServers.mk "d.auth0.com" "https" (recClient Nat)).delete
        "x" ∧
    (ResourceServers.mk "d.auth0.com" "https" (recClient Nat)).update
      "x" 5 =
      (ResourceServers.mk "d.auth0.com" "https" (recClient Nat)).update
        "x" 5 :=
  determinism
    (ResourceServers.mk "d.auth0.com" "https" (recClient Nat))
    (ResourceServers.mk "d.auth0.com" "https" (recClient Nat))
    rfl rfl rfl "x" 5 (some 2) (some 10) true

end Auth0
